import Mathlib

/-!
# Verification of the WhatsApp OTP service (src/index.js)

Shallow embedding of the OTP issuance/validation server:

* `decDigits` / `jsToString` — JS `Number.prototype.toString()` for naturals.
* `genOtpVal` / `genOtp` — `Math.floor(100000 + Math.random() * 900000).toString()`,
  with the value of `Math.random()` passed in as a rational `r` (`0 ≤ r < 1`).
* `includesStr` — JS `String.prototype.includes`.
* `OtpRecord` / `ServerState` — the mongoose OTP document and the process state
  (readiness flag, stored records, id counter, current time in seconds).
* `sendOtp` — the `POST /send-otp` handler (readiness check, falsy-body check,
  generate, save, dispatch, error mapping in the catch block).
* `validateOtp` — the `POST /validate-otp` handler (falsy checks, `findOne` on
  the exact pair, `deleteOne` by `_id`).
* `ttlPurge` — the backing store's TTL auto-expiry sweep (`expires: 300` on
  `createdAt` in the schema): it removes records whose age has reached 300 s,
  at whatever moment the sweep happens to run.
* `WaEvent` / `handleEvent` / `runClient` — the client lifecycle events the
  code listens to and their effect on the `isClientReady` flag.
-/

namespace WhatsappOtp

/-- `takeMatches pat s`: `pat` occurs as an initial segment of `s`
(helper for JS `String.prototype.includes`). -/
def takeMatches : List Char → List Char → Bool
  | [], _ => true
  | _ :: _, [] => false
  | a :: as, b :: bs => a == b && takeMatches as bs

/-- `occursIn pat s`: `pat` occurs as a contiguous run somewhere in `s`. -/
def occursIn (pat : List Char) : List Char → Bool
  | [] => pat.isEmpty
  | b :: bs => takeMatches pat (b :: bs) || occursIn pat bs

/-- JS `s.includes(pat)`. -/
def includesStr (s pat : String) : Bool :=
  occursIn pat.data s.data

/-- Decimal digit characters of `n`, most significant first (empty for 0). -/
def decDigits (n : Nat) : List Char :=
  if h : n = 0 then []
  else decDigits (n / 10) ++ [Char.ofNat (48 + n % 10)]
decreasing_by exact Nat.div_lt_self (Nat.pos_of_ne_zero h) (by decide)

/-- JS `Number.prototype.toString()` restricted to naturals. -/
def jsToString (n : Nat) : String :=
  if n = 0 then "0" else String.mk (decDigits n)

/-- Numeric value of the generated OTP:
`Math.floor(100000 + r * 900000)` where `r` is the value `Math.random()` returned. -/
def genOtpVal (r : ℚ) : Nat :=
  (Int.floor ((100000 : ℚ) + r * 900000)).toNat

/-- The generated OTP string: `Math.floor(100000 + Math.random() * 900000).toString()`. -/
def genOtp (r : ℚ) : String :=
  jsToString (genOtpVal r)

/-- A stored OTP document (`otpSchema`): `_id` (assigned at save), `phoneNumber`,
`otp`, and `createdAt` (seconds; the schema attaches `expires: 300` to it). -/
structure OtpRecord where
  id : Nat
  phoneNumber : String
  otp : String
  createdAt : Nat
deriving DecidableEq, Repr

/-- Process state: the `isClientReady` flag, the MongoDB `OTP` collection in
natural (insertion) order, the next `_id` to assign, and the current time. -/
structure ServerState where
  isClientReady : Bool
  store : List OtpRecord
  nextId : Nat
  now : Nat
deriving DecidableEq, Repr

/-- An HTTP response: `ok msg` is `200 {success:true, message:msg}`,
`err s e` is status `s` with body `{error:e}`. -/
inductive ApiResult where
  | ok (message : String)
  | err (status : Nat) (error : String)
deriving DecidableEq, Repr

/-- Outcome of `client.sendMessage`: resolves, or throws an error whose
`.message` is carried. -/
inductive DispatchResult where
  | success
  | failure (message : String)
deriving DecidableEq, Repr

/-- JS falsiness of an optional string field of `req.body`:
`undefined` and `""` are falsy. -/
def isFalsy : Option String → Bool
  | none => true
  | some s => s = ""

/-- The `POST /send-otp` handler. `r` is the value `Math.random()` produced and
`d` the outcome of `client.sendMessage`. Mirrors the source order: readiness
check first, then the falsy check on `phoneNumber`, then generate and save the
record, then dispatch, mapping a thrown error whose message includes
`"not registered"` to 400 and any other to 500. -/
def sendOtp (st : ServerState) (phoneNumber : Option String) (r : ℚ)
    (d : DispatchResult) : ApiResult × ServerState :=
  if st.isClientReady = false then
    (ApiResult.err 500 "WhatsApp client is not ready", st)
  else if isFalsy phoneNumber then
    (ApiResult.err 400 "Phone number is required", st)
  else
    let p := phoneNumber.getD ""
    let otp := genOtp r
    let otpRecord : OtpRecord :=
      { id := st.nextId, phoneNumber := p, otp := otp, createdAt := st.now }
    let st1 : ServerState :=
      { st with store := st.store ++ [otpRecord], nextId := st.nextId + 1 }
    match d with
    | DispatchResult.success => (ApiResult.ok "OTP sent successfully", st1)
    | DispatchResult.failure m =>
      if includesStr m "not registered" then
        (ApiResult.err 400 "Recipient is not registered on WhatsApp", st1)
      else
        (ApiResult.err 500 "Failed to send OTP", st1)

/-- The `POST /validate-otp` handler: falsy checks on both fields, then
`OTP.findOne({phoneNumber, otp})` — an exact match on the pair, with **no**
condition on time — and on a hit `OTP.deleteOne({_id: otpRecord._id})`
before responding success. -/
def validateOtp (st : ServerState) (phoneNumber otp : Option String) :
    ApiResult × ServerState :=
  if isFalsy phoneNumber || isFalsy otp then
    (ApiResult.err 400 "Phone number and OTP are required", st)
  else
    let p := phoneNumber.getD ""
    let c := otp.getD ""
    match st.store.find? (fun x => x.phoneNumber == p && x.otp == c) with
    | none => (ApiResult.err 400 "Invalid OTP or OTP expired", st)
    | some otpRecord =>
      (ApiResult.ok "OTP is valid",
       { st with store := st.store.eraseP (fun x => x.id == otpRecord.id) })

/-- The backing store's TTL auto-expiry (`createdAt: { expires: 300 }`):
when the background sweep runs at time `now`, it removes every record whose
age has reached 300 seconds. The handlers never invoke it; it runs at an
unspecified moment. -/
def ttlPurge (now : Nat) (store : List OtpRecord) : List OtpRecord :=
  store.filter (fun x => now < x.createdAt + 300)

/-- The client lifecycle events the source registers handlers for:
`qr`, `ready`, `auth_failure`, `disconnected`. -/
inductive WaEvent where
  | qr
  | ready
  | auth_failure
  | disconnected
deriving DecidableEq, Repr

/-- Effect of one delivered event on the `isClientReady` flag: the `qr`
handler only renders the code and leaves the flag unchanged; `ready` sets it
true; `auth_failure` and `disconnected` set it false. -/
def handleEvent (isClientReady : Bool) : WaEvent → Bool
  | WaEvent.qr => isClientReady
  | WaEvent.ready => true
  | WaEvent.auth_failure => false
  | WaEvent.disconnected => false

/-- The flag after a sequence of delivered events, starting from the initial
`let isClientReady = false`. -/
def runClient (evts : List WaEvent) : Bool :=
  evts.foldl handleEvent false

/-- Whether an event's handler writes the readiness flag at all. -/
def affectsReady : WaEvent → Bool
  | WaEvent.qr => false
  | WaEvent.ready => true
  | WaEvent.auth_failure => true
  | WaEvent.disconnected => true

/-- Spec-side characterization used for the amended readiness claim: scanning
the delivered events from most recent to oldest, dispatch is permitted iff the
first flag-affecting event encountered is `ready` (and forbidden when none
exists). The argument is the event list already reversed. -/
def gateSpecRev : List WaEvent → Bool
  | [] => false
  | WaEvent.ready :: _ => true
  | WaEvent.auth_failure :: _ => false
  | WaEvent.disconnected :: _ => false
  | WaEvent.qr :: es => gateSpecRev es

/-! ## Supporting lemmas -/

theorem decDigits_zero : decDigits 0 = [] := by
  rw [decDigits]
  rfl

theorem decDigits_pos (n : Nat) (h : n ≠ 0) :
    decDigits n = decDigits (n / 10) ++ [Char.ofNat (48 + n % 10)] := by
  rw [decDigits]
  simp [h]

theorem decDigits_length (k : Nat) :
    ∀ n, 10 ^ k ≤ n → n < 10 ^ (k + 1) → (decDigits n).length = k + 1 := by
  induction k with
  | zero =>
    intro n h1 h2
    rw [decDigits_pos n (by omega)]
    rw [Nat.div_eq_of_lt (by simpa using h2), decDigits_zero]
    rfl
  | succ k ih =>
    intro n h1 h2
    have hpow : (0:Nat) < 10 ^ (k + 1) := pow_pos (by decide) _
    rw [decDigits_pos n (by omega)]
    have hlo : 10 ^ k ≤ n / 10 := by
      rw [Nat.le_div_iff_mul_le (by decide)]
      calc 10 ^ k * 10 = 10 ^ (k + 1) := (pow_succ 10 k).symm
        _ ≤ n := h1
    have hhi : n / 10 < 10 ^ (k + 1) := by
      rw [Nat.div_lt_iff_lt_mul (by decide)]
      calc n < 10 ^ (k + 2) := h2
        _ = 10 ^ (k + 1) * 10 := pow_succ 10 (k + 1)
    rw [List.length_append, ih (n / 10) hlo hhi]
    rfl

theorem decDigits_all_digits (n : Nat) : ∀ c ∈ decDigits n, c.isDigit = true := by
  induction n using Nat.strong_induction_on with
  | _ n ih =>
    by_cases h : n = 0
    · subst h
      rw [decDigits_zero]
      intro c hc
      cases hc
    · rw [decDigits_pos n h]
      intro c hc
      rcases List.mem_append.mp hc with hmem | hmem
      · exact ih (n / 10) (Nat.div_lt_self (Nat.pos_of_ne_zero h) (by decide)) c hmem
      · have hd : n % 10 < 10 := Nat.mod_lt _ (by decide)
        have key : ∀ d, d < 10 → (Char.ofNat (48 + d)).isDigit = true := by decide
        rw [List.mem_singleton.mp hmem]
        exact key _ hd

theorem jsToString_six (n : Nat) (h1 : 100000 ≤ n) (h2 : n ≤ 999999) :
    (jsToString n).length = 6 ∧ ∀ c ∈ (jsToString n).data, c.isDigit = true := by
  have hne : n ≠ 0 := by omega
  rw [jsToString, if_neg hne]
  have hlen : (decDigits n).length = 6 := by
    have := decDigits_length 5 n (by norm_num; omega) (by norm_num; omega)
    simpa using this
  exact ⟨hlen, decDigits_all_digits n⟩

/-! ## Claim C6 — OTP generator output -/

/-- Claim C6: for every value the random source can produce (any rational
`0 ≤ r < 1` standing for the result of `Math.random()`), the generated OTP is
a 6-character numeric string whose numeric value lies in
`[100000, 999999]` inclusive. -/
theorem generated_otp_six_digit_range (r : ℚ) (h0 : 0 ≤ r) (h1 : r < 1) :
    100000 ≤ genOtpVal r ∧ genOtpVal r ≤ 999999 ∧
    (genOtp r).length = 6 ∧ ∀ c ∈ (genOtp r).data, c.isDigit = true := by
  have hxlo : (100000 : ℚ) ≤ 100000 + r * 900000 := by nlinarith
  have hxhi : (100000 : ℚ) + r * 900000 < 1000000 := by nlinarith
  have hflo : (100000 : ℤ) ≤ ⌊(100000 : ℚ) + r * 900000⌋ :=
    Int.le_floor.mpr (by exact_mod_cast hxlo)
  have hfhi : ⌊(100000 : ℚ) + r * 900000⌋ < (1000000 : ℤ) :=
    Int.floor_lt.mpr (by exact_mod_cast hxhi)
  have hlo : 100000 ≤ genOtpVal r := by
    unfold genOtpVal
    omega
  have hhi : genOtpVal r ≤ 999999 := by
    unfold genOtpVal
    omega
  have hstr := jsToString_six (genOtpVal r) hlo hhi
  exact ⟨hlo, hhi, hstr.1, hstr.2⟩

/-- Witness for C6 at `r = 1/2` (generated code 550000). -/
theorem generated_otp_six_digit_range_witness :
    (0 : ℚ) ≤ 1/2 ∧ (1/2 : ℚ) < 1 ∧
    (100000 ≤ genOtpVal (1/2) ∧ genOtpVal (1/2) ≤ 999999 ∧
     (genOtp (1/2)).length = 6 ∧ ∀ c ∈ (genOtp (1/2)).data, c.isDigit = true) :=
  ⟨by norm_num, by norm_num,
   generated_otp_six_digit_range (1/2) (by norm_num) (by norm_num)⟩

theorem jsToString_ne_empty (n : Nat) : jsToString n ≠ "" := by
  rw [jsToString]
  split
  · decide
  · next h =>
    rw [decDigits_pos n h]
    intro hc
    have hdata := congrArg String.data hc
    simp at hdata

/-! ## Handler evaluation lemmas -/

theorem sendOtp_success_eq (st : ServerState) (p : String) (r : ℚ)
    (hready : st.isClientReady = true) (hp : p ≠ "") :
    sendOtp st (some p) r DispatchResult.success
      = (ApiResult.ok "OTP sent successfully",
         { st with store := st.store ++ [⟨st.nextId, p, genOtp r, st.now⟩],
                   nextId := st.nextId + 1 }) := by
  simp [sendOtp, hready, isFalsy, hp]

theorem validateOtp_found (st : ServerState) (p c : String) (rec : OtpRecord)
    (hp : p ≠ "") (hc : c ≠ "")
    (hfind : st.store.find? (fun x => x.phoneNumber == p && x.otp == c) = some rec) :
    validateOtp st (some p) (some c)
      = (ApiResult.ok "OTP is valid",
         { st with store := st.store.eraseP (fun x => x.id == rec.id) }) := by
  simp [validateOtp, isFalsy, hp, hc, hfind]

theorem validateOtp_not_found (st : ServerState) (p c : String)
    (hp : p ≠ "") (hc : c ≠ "")
    (hfind : st.store.find? (fun x => x.phoneNumber == p && x.otp == c) = none) :
    validateOtp st (some p) (some c)
      = (ApiResult.err 400 "Invalid OTP or OTP expired", st) := by
  simp [validateOtp, isFalsy, hp, hc, hfind]

theorem find?_none_of_no_match (store : List OtpRecord) (p c : String)
    (hno : ∀ x ∈ store, ¬(x.phoneNumber = p ∧ x.otp = c)) :
    store.find? (fun x => x.phoneNumber == p && x.otp == c) = none := by
  apply List.find?_eq_none.mpr
  intro x hx h
  exact hno x hx (by simpa using h)

theorem find?_append_singleton_match (store : List OtpRecord) (rec : OtpRecord)
    (f : OtpRecord → Bool)
    (hno : ∀ x ∈ store, f x = false) (hrec : f rec = true) :
    (store ++ [rec]).find? f = some rec := by
  rw [List.find?_append, List.find?_eq_none.mpr (fun x hx => by simp [hno x hx])]
  simp [List.find?, hrec]

theorem eraseP_append_singleton (store : List OtpRecord) (rec : OtpRecord)
    (hfresh : ∀ x ∈ store, x.id ≠ rec.id) :
    (store ++ [rec]).eraseP (fun x => x.id == rec.id) = store := by
  rw [List.eraseP_append_right _ (fun b hb => by simp [hfresh b hb])]
  simp [List.eraseP_cons]

/-! ## Claim C2 — single-use validation -/

/-- Claim C2: after one successful issuance for `p` generating code `genOtp r`
(no prior record with that pair, fresh id), the first `validate(p, code)`
succeeds — it deletes the matched record before returning success — and an
immediately repeated `validate(p, code)` fails with `InvalidOrExpiredOtp`. -/
theorem otp_single_use (st : ServerState) (p : String) (r : ℚ)
    (hready : st.isClientReady = true) (hp : p ≠ "")
    (hno : ∀ x ∈ st.store, ¬(x.phoneNumber = p ∧ x.otp = genOtp r))
    (hfresh : ∀ x ∈ st.store, x.id ≠ st.nextId) :
    (sendOtp st (some p) r DispatchResult.success).fst
        = ApiResult.ok "OTP sent successfully" ∧
    (validateOtp (sendOtp st (some p) r DispatchResult.success).snd
        (some p) (some (genOtp r))).fst = ApiResult.ok "OTP is valid" ∧
    (validateOtp (validateOtp (sendOtp st (some p) r DispatchResult.success).snd
        (some p) (some (genOtp r))).snd (some p) (some (genOtp r))).fst
        = ApiResult.err 400 "Invalid OTP or OTP expired" := by
  have hcne : genOtp r ≠ "" := jsToString_ne_empty _
  have hsend := sendOtp_success_eq st p r hready hp
  have hfind1 : (st.store ++ [(⟨st.nextId, p, genOtp r, st.now⟩ : OtpRecord)]).find?
      (fun x => x.phoneNumber == p && x.otp == genOtp r)
      = some ⟨st.nextId, p, genOtp r, st.now⟩ := by
    apply find?_append_singleton_match
    · intro x hx
      by_contra hcon
      rw [Bool.not_eq_false, Bool.and_eq_true, beq_iff_eq, beq_iff_eq] at hcon
      exact hno x hx hcon
    · simp
  have herase : (st.store ++ [(⟨st.nextId, p, genOtp r, st.now⟩ : OtpRecord)]).eraseP
      (fun x => x.id == (⟨st.nextId, p, genOtp r, st.now⟩ : OtpRecord).id) = st.store :=
    eraseP_append_singleton _ _ hfresh
  have hval1 := validateOtp_found
    ({ st with store := st.store ++ [⟨st.nextId, p, genOtp r, st.now⟩],
               nextId := st.nextId + 1 })
    p (genOtp r) ⟨st.nextId, p, genOtp r, st.now⟩ hp hcne hfind1
  rw [herase] at hval1
  have hval2 := validateOtp_not_found
    ({ st with nextId := st.nextId + 1 })
    p (genOtp r) hp hcne (find?_none_of_no_match st.store p (genOtp r) hno)
  rw [hsend]
  refine ⟨rfl, ?_, ?_⟩
  · rw [hval1]
  · rw [hval1]
    rw [hval2]

/-- Witness for C2: fresh ready state, phone `1000000000`, `r = 1/2`. -/
theorem otp_single_use_witness :
    (⟨true, [], 0, 0⟩ : ServerState).isClientReady = true ∧
    ("1000000000" : String) ≠ "" ∧
    (∀ x ∈ (⟨true, [], 0, 0⟩ : ServerState).store,
      ¬(x.phoneNumber = "1000000000" ∧ x.otp = genOtp (1/2))) ∧
    (∀ x ∈ (⟨true, [], 0, 0⟩ : ServerState).store,
      x.id ≠ (⟨true, [], 0, 0⟩ : ServerState).nextId) ∧
    ((sendOtp ⟨true, [], 0, 0⟩ (some "1000000000") (1/2) DispatchResult.success).fst
        = ApiResult.ok "OTP sent successfully" ∧
     (validateOtp (sendOtp ⟨true, [], 0, 0⟩ (some "1000000000") (1/2)
        DispatchResult.success).snd
        (some "1000000000") (some (genOtp (1/2)))).fst = ApiResult.ok "OTP is valid" ∧
     (validateOtp (validateOtp (sendOtp ⟨true, [], 0, 0⟩ (some "1000000000") (1/2)
        DispatchResult.success).snd
        (some "1000000000") (some (genOtp (1/2)))).snd
        (some "1000000000") (some (genOtp (1/2)))).fst
        = ApiResult.err 400 "Invalid OTP or OTP expired") :=
  ⟨rfl, by decide, by simp, by simp,
   otp_single_use ⟨true, [], 0, 0⟩ "1000000000" (1/2) rfl (by decide)
     (by simp) (by simp)⟩

/-! ## Claim C3 — issuance blocked while not ready -/

/-- Claim C3: while the readiness flag is down, `POST /send-otp` fails with the
500 "WhatsApp client is not ready" response, the state (in particular the
store) is unchanged, and — provided the store held no record for that phone
number — every subsequent validation for that number fails, whatever the code. -/
theorem issue_not_ready_no_record (st : ServerState) (p : String) (r : ℚ)
    (d : DispatchResult)
    (hnotready : st.isClientReady = false)
    (hno : ∀ x ∈ st.store, x.phoneNumber ≠ p) :
    (sendOtp st (some p) r d).fst = ApiResult.err 500 "WhatsApp client is not ready" ∧
    (sendOtp st (some p) r d).snd = st ∧
    ∀ c m : String,
      (validateOtp (sendOtp st (some p) r d).snd (some p) (some c)).fst
        ≠ ApiResult.ok m := by
  have hsend : sendOtp st (some p) r d
      = (ApiResult.err 500 "WhatsApp client is not ready", st) := by
    simp [sendOtp, hnotready]
  refine ⟨by rw [hsend], by rw [hsend], ?_⟩
  intro c m
  rw [hsend]
  by_cases hp : p = ""
  · simp [validateOtp, isFalsy, hp]
  · by_cases hc : c = ""
    · simp [validateOtp, isFalsy, hp, hc]
    · have hfind : st.store.find? (fun x => x.phoneNumber == p && x.otp == c) = none := by
        apply List.find?_eq_none.mpr
        intro x hx
        simp [hno x hx]
      simp [validateOtp, isFalsy, hp, hc, hfind]

/-- Witness for C3: not-ready state whose store holds a record for a different
phone number. -/
theorem issue_not_ready_no_record_witness :
    (⟨false, [⟨0, "2222222222", "123456", 0⟩], 1, 0⟩ : ServerState).isClientReady = false ∧
    (∀ x ∈ (⟨false, [⟨0, "2222222222", "123456", 0⟩], 1, 0⟩ : ServerState).store,
      x.phoneNumber ≠ "1000000000") ∧
    ((sendOtp ⟨false, [⟨0, "2222222222", "123456", 0⟩], 1, 0⟩ (some "1000000000") 0
        DispatchResult.success).fst = ApiResult.err 500 "WhatsApp client is not ready" ∧
     (sendOtp ⟨false, [⟨0, "2222222222", "123456", 0⟩], 1, 0⟩ (some "1000000000") 0
        DispatchResult.success).snd = ⟨false, [⟨0, "2222222222", "123456", 0⟩], 1, 0⟩ ∧
     ∀ c m : String,
       (validateOtp (sendOtp ⟨false, [⟨0, "2222222222", "123456", 0⟩], 1, 0⟩
          (some "1000000000") 0 DispatchResult.success).snd
          (some "1000000000") (some c)).fst ≠ ApiResult.ok m) :=
  ⟨rfl, by decide,
   issue_not_ready_no_record ⟨false, [⟨0, "2222222222", "123456", 0⟩], 1, 0⟩
     "1000000000" 0 DispatchResult.success rfl (by decide)⟩

/-! ## Claim C4 — input validation vs. readiness ordering -/

/-- Claim C4 counterexample: with the client not ready and `phoneNumber`
missing, the handler returns the 500 readiness error rather than the 400
"Phone number is required" error — the readiness check runs first, so the
`InvalidInput` result does NOT hold regardless of the channel's readiness
state. -/
theorem readiness_checked_before_input :
    (sendOtp ⟨false, [], 0, 0⟩ none 0 DispatchResult.success).fst
        = ApiResult.err 500 "WhatsApp client is not ready" ∧
    (sendOtp ⟨false, [], 0, 0⟩ none 0 DispatchResult.success).fst
        ≠ ApiResult.err 400 "Phone number is required" := by
  refine ⟨rfl, ?_⟩
  intro hcon
  rw [show (sendOtp ⟨false, [], 0, 0⟩ none 0 DispatchResult.success).fst
      = ApiResult.err 500 "WhatsApp client is not ready" from rfl] at hcon
  cases hcon

/-- Claim C4 amended: when the client IS ready, an issue request whose
`phoneNumber` is empty or missing fails with 400 "Phone number is required"
and leaves the state unchanged. (In the code the readiness check precedes the
input check, so readiness must be assumed.) -/
theorem missing_phone_rejected_when_ready (st : ServerState) (pn : Option String)
    (r : ℚ) (d : DispatchResult)
    (hready : st.isClientReady = true) (hfalsy : isFalsy pn = true) :
    sendOtp st pn r d = (ApiResult.err 400 "Phone number is required", st) := by
  simp [sendOtp, hready, hfalsy]

/-- Witness for C4 (amended) at a ready state with a missing phone number. -/
theorem missing_phone_rejected_when_ready_witness :
    (⟨true, [], 0, 0⟩ : ServerState).isClientReady = true ∧ isFalsy none = true ∧
    sendOtp ⟨true, [], 0, 0⟩ none 0 DispatchResult.success
      = (ApiResult.err 400 "Phone number is required", ⟨true, [], 0, 0⟩) :=
  ⟨rfl, rfl,
   missing_phone_rejected_when_ready ⟨true, [], 0, 0⟩ none 0
     DispatchResult.success rfl rfl⟩

/-! ## Claim C7 — issuance is additive -/

/-- Claim C7: a successful issuance appends exactly one new record (with the
requested phone number, the generated code and the current time) to the store
and deletes, overwrites or merges nothing: every previously stored record —
in particular every earlier record for the same phone number — is still
present afterwards. -/
theorem issue_additive (st : ServerState) (p : String) (r : ℚ)
    (hready : st.isClientReady = true) (hp : p ≠ "") :
    (sendOtp st (some p) r DispatchResult.success).fst
        = ApiResult.ok "OTP sent successfully" ∧
    (sendOtp st (some p) r DispatchResult.success).snd.store
        = st.store ++ [⟨st.nextId, p, genOtp r, st.now⟩] ∧
    ∀ x ∈ st.store, x ∈ (sendOtp st (some p) r DispatchResult.success).snd.store := by
  have hsend := sendOtp_success_eq st p r hready hp
  rw [hsend]
  refine ⟨rfl, rfl, ?_⟩
  intro x hx
  simp [hx]

/-- Witness for C7: ready state already holding a record for another number. -/
theorem issue_additive_witness :
    (⟨true, [⟨0, "2222222222", "111111", 5⟩], 1, 7⟩ : ServerState).isClientReady = true ∧
    ("1000000000" : String) ≠ "" ∧
    ((sendOtp ⟨true, [⟨0, "2222222222", "111111", 5⟩], 1, 7⟩ (some "1000000000") (1/2)
        DispatchResult.success).fst = ApiResult.ok "OTP sent successfully" ∧
     (sendOtp ⟨true, [⟨0, "2222222222", "111111", 5⟩], 1, 7⟩ (some "1000000000") (1/2)
        DispatchResult.success).snd.store
        = [⟨0, "2222222222", "111111", 5⟩] ++ [⟨1, "1000000000", genOtp (1/2), 7⟩] ∧
     ∀ x ∈ (⟨true, [⟨0, "2222222222", "111111", 5⟩], 1, 7⟩ : ServerState).store,
       x ∈ (sendOtp ⟨true, [⟨0, "2222222222", "111111", 5⟩], 1, 7⟩ (some "1000000000")
         (1/2) DispatchResult.success).snd.store) :=
  ⟨rfl, by decide,
   issue_additive ⟨true, [⟨0, "2222222222", "111111", 5⟩], 1, 7⟩ "1000000000" (1/2)
     rfl (by decide)⟩

/-! ## Claim C8 — dispatch failure mapping, record kept -/

/-- Claim C8: when dispatch fails after the record was stored, the thrown
error is mapped by cause — a message containing "not registered" yields the
400 `RecipientNotRegistered` response, any other message the 500
`DispatchFailed` response — and in either case the stored record is not
rolled back: the store still ends with the newly saved record. -/
theorem dispatch_failure_mapping (st : ServerState) (p m : String) (r : ℚ)
    (hready : st.isClientReady = true) (hp : p ≠ "") :
    (includesStr m "not registered" = true →
        (sendOtp st (some p) r (DispatchResult.failure m)).fst
          = ApiResult.err 400 "Recipient is not registered on WhatsApp") ∧
    (includesStr m "not registered" = false →
        (sendOtp st (some p) r (DispatchResult.failure m)).fst
          = ApiResult.err 500 "Failed to send OTP") ∧
    (sendOtp st (some p) r (DispatchResult.failure m)).snd.store
        = st.store ++ [⟨st.nextId, p, genOtp r, st.now⟩] := by
  refine ⟨?_, ?_, ?_⟩
  · intro hin
    simp [sendOtp, hready, isFalsy, hp, hin]
  · intro hin
    simp [sendOtp, hready, isFalsy, hp, hin]
  · cases hin : includesStr m "not registered" <;>
      simp [sendOtp, hready, isFalsy, hp, hin]

/-- Witness for C8 with the message WhatsApp produces for an unregistered
recipient. -/
theorem dispatch_failure_mapping_witness :
    (⟨true, [], 0, 0⟩ : ServerState).isClientReady = true ∧
    ("1000000000" : String) ≠ "" ∧
    ((includesStr "The number is not registered" "not registered" = true →
        (sendOtp ⟨true, [], 0, 0⟩ (some "1000000000") (1/2)
          (DispatchResult.failure "The number is not registered")).fst
          = ApiResult.err 400 "Recipient is not registered on WhatsApp") ∧
     (includesStr "The number is not registered" "not registered" = false →
        (sendOtp ⟨true, [], 0, 0⟩ (some "1000000000") (1/2)
          (DispatchResult.failure "The number is not registered")).fst
          = ApiResult.err 500 "Failed to send OTP") ∧
     (sendOtp ⟨true, [], 0, 0⟩ (some "1000000000") (1/2)
        (DispatchResult.failure "The number is not registered")).snd.store
        = [] ++ [⟨0, "1000000000", genOtp (1/2), 0⟩]) :=
  ⟨rfl, by decide,
   dispatch_failure_mapping ⟨true, [], 0, 0⟩ "1000000000"
     "The number is not registered" (1/2) rfl (by decide)⟩

/-! ## Claim C9 — duplicates: delete targets one record only -/

/-- Claim C9: `deleteOne` targets only the matched record's `_id`: with two
stored records carrying the identical (phoneNumber, code) pair but distinct
ids, the first validation succeeds and leaves exactly the other duplicate in
the store, and a second identical validation finds it and succeeds again —
rather than failing as single-use suggests. -/
theorem duplicate_records_validate_twice (st : ServerState) (p c : String)
    (r1 r2 : OtpRecord)
    (hp : p ≠ "") (hc : c ≠ "")
    (hstore : st.store = [r1, r2])
    (h1p : r1.phoneNumber = p) (h1c : r1.otp = c)
    (h2p : r2.phoneNumber = p) (h2c : r2.otp = c)
    (_hid : r1.id ≠ r2.id) :
    (validateOtp st (some p) (some c)).fst = ApiResult.ok "OTP is valid" ∧
    (validateOtp st (some p) (some c)).snd.store = [r2] ∧
    (validateOtp (validateOtp st (some p) (some c)).snd (some p) (some c)).fst
        = ApiResult.ok "OTP is valid" ∧
    (validateOtp (validateOtp st (some p) (some c)).snd (some p) (some c)).snd.store
        = [] := by
  have hfind1 : st.store.find? (fun x => x.phoneNumber == p && x.otp == c) = some r1 := by
    rw [hstore]
    simp [List.find?, h1p, h1c]
  have hval1 := validateOtp_found st p c r1 hp hc hfind1
  have herase1 : st.store.eraseP (fun x => x.id == r1.id) = [r2] := by
    rw [hstore]
    simp [List.eraseP_cons]
  rw [herase1] at hval1
  have hfind2 : ([r2] : List OtpRecord).find?
      (fun x => x.phoneNumber == p && x.otp == c) = some r2 := by
    simp [List.find?, h2p, h2c]
  have hval2 := validateOtp_found { st with store := [r2] } p c r2 hp hc hfind2
  have herase2 : ([r2] : List OtpRecord).eraseP (fun x => x.id == r2.id) = [] := by
    simp [List.eraseP_cons]
  rw [herase2] at hval2
  rw [hval1]
  exact ⟨rfl, rfl, by rw [hval2], by rw [hval2]⟩

/-- Witness for C9: two records with the same pair and different ids. -/
theorem duplicate_records_validate_twice_witness :
    ("1000000000" : String) ≠ "" ∧ ("123456" : String) ≠ "" ∧
    (⟨true, [⟨0, "1000000000", "123456", 0⟩, ⟨1, "1000000000", "123456", 10⟩], 2, 20⟩ :
        ServerState).store
      = [⟨0, "1000000000", "123456", 0⟩, ⟨1, "1000000000", "123456", 10⟩] ∧
    ((validateOtp ⟨true, [⟨0, "1000000000", "123456", 0⟩,
        ⟨1, "1000000000", "123456", 10⟩], 2, 20⟩
        (some "1000000000") (some "123456")).fst = ApiResult.ok "OTP is valid" ∧
     (validateOtp ⟨true, [⟨0, "1000000000", "123456", 0⟩,
        ⟨1, "1000000000", "123456", 10⟩], 2, 20⟩
        (some "1000000000") (some "123456")).snd.store
        = [⟨1, "1000000000", "123456", 10⟩] ∧
     (validateOtp (validateOtp ⟨true, [⟨0, "1000000000", "123456", 0⟩,
        ⟨1, "1000000000", "123456", 10⟩], 2, 20⟩
        (some "1000000000") (some "123456")).snd
        (some "1000000000") (some "123456")).fst = ApiResult.ok "OTP is valid" ∧
     (validateOtp (validateOtp ⟨true, [⟨0, "1000000000", "123456", 0⟩,
        ⟨1, "1000000000", "123456", 10⟩], 2, 20⟩
        (some "1000000000") (some "123456")).snd
        (some "1000000000") (some "123456")).snd.store = []) :=
  ⟨by decide, by decide, rfl,
   duplicate_records_validate_twice
     ⟨true, [⟨0, "1000000000", "123456", 0⟩, ⟨1, "1000000000", "123456", 10⟩], 2, 20⟩
     "1000000000" "123456" ⟨0, "1000000000", "123456", 0⟩
     ⟨1, "1000000000", "123456", 10⟩
     (by decide) (by decide) rfl rfl rfl rfl rfl (by decide)⟩

/-! ## Claim C10 — the code never leaks into the response -/

/-- Claim C10: for every state, request body and dispatch outcome, two runs of
`POST /send-otp` that differ only in the value the random source produced
return the same response: no outcome — success, RecipientNotRegistered or
DispatchFailed — puts the generated code in the response body. -/
theorem response_independent_of_code (st : ServerState) (pn : Option String)
    (r1 r2 : ℚ) (d : DispatchResult) :
    (sendOtp st pn r1 d).fst = (sendOtp st pn r2 d).fst := by
  by_cases hready : st.isClientReady = false
  · simp [sendOtp, hready]
  · by_cases hfal : isFalsy pn = true
    · simp [sendOtp, hready, hfal]
    · rcases d with _ | m
      · simp [sendOtp, hready, hfal]
      · by_cases hin : includesStr m "not registered" = true <;>
          simp [sendOtp, hready, hfal, hin]

/-! ## Claim C1 — expiry is enforced only by the purge -/

/-- Claim C1 counterexample: a record created at time 0 has been expired for a
second at time 301 (TTL 300 s) and has not yet been physically purged;
`validate` on the exact pair still returns success, because `findOne` matches
only `phoneNumber` and `otp` and performs no time check — contradicting
"fails ... regardless of whether the record has been physically purged yet". -/
theorem validate_accepts_expired_unpurged :
    ((⟨true, [⟨0, "1000000000", "123456", 0⟩], 1, 301⟩ : ServerState).now
        ≥ 0 + 300) ∧
    (validateOtp ⟨true, [⟨0, "1000000000", "123456", 0⟩], 1, 301⟩
        (some "1000000000") (some "123456")).fst = ApiResult.ok "OTP is valid" :=
  ⟨by decide, by decide⟩

/-- Claim C1 amended: expiry is enforced by the backing store's TTL sweep
rather than by the lookup itself: if every stored record matching the pair
has reached its TTL (now ≥ createdAt + 300) and the TTL sweep has run, the
lookup fails with `InvalidOrExpiredOtp`; until the sweep runs, an expired
record still validates. -/
theorem validate_fails_after_purge (st : ServerState) (p c : String)
    (hp : p ≠ "") (hc : c ≠ "")
    (hexp : ∀ x ∈ st.store, x.phoneNumber = p → x.otp = c →
      st.now ≥ x.createdAt + 300) :
    (validateOtp { st with store := ttlPurge st.now st.store }
        (some p) (some c)).fst = ApiResult.err 400 "Invalid OTP or OTP expired" := by
  have hfind : (ttlPurge st.now st.store).find?
      (fun x => x.phoneNumber == p && x.otp == c) = none := by
    apply List.find?_eq_none.mpr
    intro x hx hcon
    have hmem := List.mem_filter.mp hx
    rw [Bool.and_eq_true, beq_iff_eq, beq_iff_eq] at hcon
    have hge := hexp x hmem.1 hcon.1 hcon.2
    have hlt : st.now < x.createdAt + 300 := by simpa using hmem.2
    omega
  rw [validateOtp_not_found { st with store := ttlPurge st.now st.store } p c hp hc hfind]

/-- Witness for C1 (amended): the counterexample state after the sweep runs. -/
theorem validate_fails_after_purge_witness :
    ("1000000000" : String) ≠ "" ∧ ("123456" : String) ≠ "" ∧
    (∀ x ∈ (⟨true, [⟨0, "1000000000", "123456", 0⟩], 1, 301⟩ : ServerState).store,
      x.phoneNumber = "1000000000" → x.otp = "123456" →
        (⟨true, [⟨0, "1000000000", "123456", 0⟩], 1, 301⟩ : ServerState).now
          ≥ x.createdAt + 300) ∧
    (validateOtp { (⟨true, [⟨0, "1000000000", "123456", 0⟩], 1, 301⟩ : ServerState) with
        store := ttlPurge (⟨true, [⟨0, "1000000000", "123456", 0⟩], 1, 301⟩ :
          ServerState).now
          (⟨true, [⟨0, "1000000000", "123456", 0⟩], 1, 301⟩ : ServerState).store }
        (some "1000000000") (some "123456")).fst
      = ApiResult.err 400 "Invalid OTP or OTP expired" :=
  ⟨by decide, by decide, by decide,
   validate_fails_after_purge ⟨true, [⟨0, "1000000000", "123456", 0⟩], 1, 301⟩
     "1000000000" "123456" (by decide) (by decide) (by decide)⟩

/-! ## Claim C5 — the readiness flag as a state machine -/

theorem runClient_eq_gateSpecRev (evts : List WaEvent) :
    runClient evts = gateSpecRev evts.reverse := by
  induction evts using List.reverseRecOn with
  | nil => rfl
  | append_singleton es e ih =>
    rw [runClient, List.foldl_append, List.reverse_append]
    cases e
    · simpa [gateSpecRev, handleEvent, runClient] using ih
    · simp [gateSpecRev, handleEvent]
    · simp [gateSpecRev, handleEvent]
    · simp [gateSpecRev, handleEvent]

theorem gateSpecRev_eq_head_filter (l : List WaEvent) :
    (gateSpecRev l = true) ↔ (l.filter affectsReady).head? = some WaEvent.ready := by
  induction l with
  | nil => simp [gateSpecRev]
  | cons e es ih =>
    cases e
    · simpa [gateSpecRev, affectsReady, List.filter] using ih
    · simp [gateSpecRev, affectsReady, List.filter]
    · simp [gateSpecRev, affectsReady, List.filter]
    · simp [gateSpecRev, affectsReady, List.filter]

/-- Claim C5 counterexample: deliver `ready` and then `qr`. The most recent
delivered event is not `ready`, yet the flag — and with it dispatch
permission — is still true: the `qr` handler does not write the flag, so
"dispatch permission holds exactly when the most recent event was `ready`"
fails, as does "any event other than `ready` leaves dispatch forbidden". -/
theorem qr_preserves_dispatch_permission :
    runClient [WaEvent.ready, WaEvent.qr] = true ∧
    [WaEvent.ready, WaEvent.qr].getLast? ≠ some WaEvent.ready :=
  ⟨rfl, by decide⟩

/-- Claim C5 amended: the flag starts false; every handler is idempotent; and
dispatch permission holds exactly when the most recent *flag-affecting* event
(`ready`, `auth_failure` or `disconnected`) was `ready` — the `qr` handler
leaves the flag, and hence dispatch permission, unchanged. -/
theorem gate_tracks_last_flag_event :
    runClient [] = false ∧
    (∀ (b : Bool) (e : WaEvent), handleEvent (handleEvent b e) e = handleEvent b e) ∧
    ∀ evts : List WaEvent,
      runClient evts = true ↔ (evts.filter affectsReady).getLast? = some WaEvent.ready := by
  refine ⟨rfl, ?_, ?_⟩
  · intro b e
    cases e <;> rfl
  · intro evts
    rw [runClient_eq_gateSpecRev, gateSpecRev_eq_head_filter,
      List.filter_reverse, List.head?_reverse]

end WhatsappOtp
